import Mathlib

/-!
A shallow embedding of the MoModbus CLI tool (`momodbus.py`) and proofs of
the testable properties of its specification.

The embedding models the program's pure data flow explicitly:

* randomness is passed in as an explicit stream `Nat → Nat`, with
  `random.choice([True, False])` and `random.randint(0, max)` modelled by
  `pyChoice` and `randint0`;
* the pymodbus datastore (`ModbusSlaveContext` / `ModbusServerContext`) is
  modelled by `AddressSpace` / `ServerContext`, with `setValues` writing a
  batch of cells starting at a given address (`writeSeq`);
* side effects (transport calls, prompts, log lines, echoes) are recorded in
  explicit event traces, and Python exceptions are modelled by
  `Except` results (`click.UsageError` never being caught by the code's
  `except ModbusException` handlers, it surfaces as an `Except.error`).
-/

namespace MoModbus

/-- `random.choice([True, False])`, fed by one draw from the random stream. -/
def pyChoice (r : Nat) : Bool := r % 2 == 0

/-- `random.randint(0, max)`: a uniform draw from `[0, max]` inclusive,
modelled as the draw `r` reduced mod `max + 1`. -/
def randint0 (max r : Nat) : Nat := r % (max + 1)

/-- `[random.choice([True, False]) for _ in range(n)]`. -/
def genCoilList (rng : Nat → Nat) (n : Nat) : List Bool :=
  (List.range n).map (fun i => pyChoice (rng i))

/-- `[random.randint(0, max) for _ in range(n)]`. -/
def genRegList (max : Nat) (rng : Nat → Nat) (n : Nat) : List Nat :=
  (List.range n).map (fun i => randint0 max (rng i))

/-- A cell of a pymodbus data block.  The blocks are untyped Python lists:
the code stores booleans in the coil / discrete-input blocks and integers in
the register blocks. -/
inductive Cell where
  | b (x : Bool)
  | n (x : Nat)
  deriving DecidableEq, Repr

/-- Batch write of a list of cells starting at address `start`, over a bank
modelled as a total function from addresses to cells.  This is the semantics
of `ModbusSlaveContext.setValues` for a sequential data block: the cells at
`start, start+1, ...` are replaced by `vs`, all other cells are unchanged. -/
def writeSeq {α : Type} (f : Nat → α) (start : Nat) (vs : List α) (a : Nat) : α :=
  if h : start ≤ a ∧ a - start < vs.length then vs.get ⟨a - start, h.2⟩ else f a

theorem writeSeq_of_lt {α : Type} (f : Nat → α) (start : Nat) (vs : List α) (a : Nat)
    (h : a < start) : writeSeq f start vs a = f a := by
  unfold writeSeq
  rw [dif_neg]
  omega

theorem writeSeq_of_ge {α : Type} (f : Nat → α) (start : Nat) (vs : List α) (a : Nat)
    (h : start + vs.length ≤ a) : writeSeq f start vs a = f a := by
  unfold writeSeq
  rw [dif_neg]
  omega

theorem writeSeq_get {α : Type} (f : Nat → α) (start : Nat) (vs : List α) (i : Nat)
    (h : i < vs.length) : writeSeq f start vs (start + i) = vs.get ⟨i, h⟩ := by
  unfold writeSeq
  rw [dif_pos ⟨Nat.le_add_right _ _, by omega⟩]
  exact congrArg vs.get (Fin.ext (Nat.add_sub_cancel_left start i))

theorem writeSeq_cases {α : Type} (f : Nat → α) (start : Nat) (vs : List α) (a : Nat) :
    writeSeq f start vs a = f a ∨ writeSeq f start vs a ∈ vs := by
  unfold writeSeq
  split
  · exact Or.inr (List.get_mem _ _ _)
  · exact Or.inl rfl

/-- The four data banks of one Modbus unit (`ModbusSlaveContext`): coils,
discrete inputs, holding registers, input registers. -/
structure AddressSpace where
  co : Nat → Cell
  di : Nat → Cell
  hr : Nat → Cell
  ir : Nat → Cell

/-- `ModbusServerContext(slaves=..., single=False)`: a partial map from unit
identifiers to their address space; looking up a missing unit raises. -/
structure ServerContext where
  slaves : Int → Option AddressSpace

/-- Replace the address space of unit `u` in the context (the effect of an
in-place mutation of `context[u]`). -/
def updateSlave (ctx : ServerContext) (u : Int) (sp : AddressSpace) : ServerContext :=
  ⟨fun v => if v = u then some sp else ctx.slaves v⟩

/-- Looking the unit back up right after replacing its address space yields
the replacement. -/
theorem updateSlave_self (ctx : ServerContext) (u : Int) (sp : AddressSpace) :
    (updateSlave ctx u sp).slaves u = some sp := by
  simp [updateSlave]

/-- A bank built from a pymodbus `ModbusSequentialDataBlock(1, vals)`:
cells at addresses `1 .. vals.length` hold `vals`, all other addresses hold
the block's default cell. -/
def blockFun (vs : List Cell) (dflt : Cell) : Nat → Cell :=
  writeSeq (fun _ => dflt) 1 vs

/-- `initialize_server_context`: builds the four data blocks (randomly
initialized when `random_init` is set, with registers drawn from
`[0, max_register_value]`), wraps them in one slave store and returns a
server context mapping unit id 1 — and only unit id 1 — to that store. -/
def initialize_server_context (coils discrete_inputs holding_registers input_registers : Nat)
    (random_init : Bool) (max_register_value : Nat) (rc rd rh ri : Nat → Nat) :
    ServerContext :=
  let coils_block : List Cell :=
    (if random_init then genCoilList rc coils else List.replicate coils false).map Cell.b
  let di_block : List Cell :=
    (if random_init then genCoilList rd discrete_inputs
     else List.replicate discrete_inputs false).map Cell.b
  let hr_block : List Cell :=
    (if random_init then genRegList max_register_value rh holding_registers
     else List.replicate holding_registers 0).map Cell.n
  let ir_block : List Cell :=
    (if random_init then genRegList max_register_value ri input_registers
     else List.replicate input_registers 0).map Cell.n
  let store : AddressSpace :=
    { co := blockFun coils_block (Cell.b false)
      di := blockFun di_block (Cell.b false)
      hr := blockFun hr_block (Cell.n 0)
      ir := blockFun ir_block (Cell.n 0) }
  ⟨fun u => if u = 1 then some store else none⟩

/-! ## Background updater (`update_random_values`) -/

/-- An exception raised inside one tick of the updater loop.  `noSuchSlave`
is pymodbus's `NoSuchSlaveException`, raised by `context[unit_id]` when the
unit is not in the server context; `generic` stands for any other
`Exception`. -/
inductive PyExn where
  | generic
  | noSuchSlave
  deriving DecidableEq, Repr

/-- Fault-injection points, one per statement of the `try` block of
`update_random_values`: generating the coil list, writing the coils,
generating the register list, writing the registers, the diagnostic
read-back of the first holding register, and the inter-tick sleep. -/
inductive FailPoint where
  | genCoils
  | setCoils
  | genRegs
  | setRegs
  | readback
  | sleep
  deriving DecidableEq, Repr

/-- The environment of one tick: the random draws feeding the coil and
register generators, and an optional injected fault. -/
structure TickInput where
  rngC : Nat → Nat
  rngR : Nat → Nat
  fail : Option FailPoint

/-- Observable events of one updater tick. -/
inductive UEvent where
  | setVals (fc : Nat) (addr : Nat) (vals : List Cell)
  | readback
  | logError
  deriving DecidableEq, Repr

/-- The body of one tick of `update_random_values` (the contents of the
`try` block): generate random coils, write them via
`context[unit_id].setValues(1, 1, coils)`, generate random registers bounded
by `max_register_value`, write them via
`context[unit_id].setValues(3, 1, registers)`, read back the first holding
register for logging, then sleep.  Returns the context state reached, the
events produced, and the exception raised (if any) — mutations performed
before the exception stay applied. -/
def update_random_values_tick_body (unit_id : Int)
    (coils_count holding_registers_count max_register_value : Nat)
    (ctx : ServerContext) (inp : TickInput) :
    ServerContext × List UEvent × Option PyExn :=
  if inp.fail = some FailPoint.genCoils then (ctx, [], some PyExn.generic) else
  let coils := genCoilList inp.rngC coils_count
  match ctx.slaves unit_id with
  | none => (ctx, [], some PyExn.noSuchSlave)
  | some sp =>
    if inp.fail = some FailPoint.setCoils then (ctx, [], some PyExn.generic) else
    let sp1 := { sp with co := writeSeq sp.co 1 (coils.map Cell.b) }
    let ctx1 := updateSlave ctx unit_id sp1
    let evs1 := [UEvent.setVals 1 1 (coils.map Cell.b)]
    if inp.fail = some FailPoint.genRegs then (ctx1, evs1, some PyExn.generic) else
    let registers := genRegList max_register_value inp.rngR holding_registers_count
    match ctx1.slaves unit_id with
    | none => (ctx1, evs1, some PyExn.noSuchSlave)
    | some sp1' =>
      if inp.fail = some FailPoint.setRegs then (ctx1, evs1, some PyExn.generic) else
      let sp2 := { sp1' with hr := writeSeq sp1'.hr 1 (registers.map Cell.n) }
      let ctx2 := updateSlave ctx1 unit_id sp2
      let evs2 := evs1 ++ [UEvent.setVals 3 1 (registers.map Cell.n)]
      if inp.fail = some FailPoint.readback then (ctx2, evs2, some PyExn.generic) else
      let evs3 := evs2 ++ [UEvent.readback]
      if inp.fail = some FailPoint.sleep then (ctx2, evs3, some PyExn.generic) else
      (ctx2, evs3, none)

/-- What the loop does after one iteration of its body: proceed to the next
tick, or stop (the loop has no stopping construct — `stop` is here so that
"the loop never terminates on an error" is a provable statement rather than
one true by the shape of the type). -/
inductive LoopCtl where
  | next
  | stop (e : PyExn)
  deriving DecidableEq, Repr

/-- One full iteration of the `while True` loop of `update_random_values`:
run the tick body; on an exception, log the error (`except Exception as e:
logger.error(...)`) and continue to the next tick. -/
def update_random_values_tick (unit_id : Int)
    (coils_count holding_registers_count max_register_value : Nat)
    (ctx : ServerContext) (inp : TickInput) :
    ServerContext × List UEvent × LoopCtl :=
  match update_random_values_tick_body unit_id coils_count holding_registers_count
      max_register_value ctx inp with
  | (ctx', evs, none) => (ctx', evs, LoopCtl.next)
  | (ctx', evs, some _) => (ctx', evs ++ [UEvent.logError], LoopCtl.next)

/-- The `while True` loop of `update_random_values`, driven by a finite
prefix of tick environments: iterates the tick as long as the control signal
is `next`, and returns the final context together with the number of ticks
actually performed. -/
def update_random_values (unit_id : Int)
    (coils_count holding_registers_count max_register_value : Nat) :
    ServerContext → List TickInput → ServerContext × Nat
  | ctx, [] => (ctx, 0)
  | ctx, inp :: rest =>
    match update_random_values_tick unit_id coils_count holding_registers_count
        max_register_value ctx inp with
    | (ctx', _, LoopCtl.next) =>
      let r := update_random_values unit_id coils_count holding_registers_count
        max_register_value ctx' rest
      (r.1, r.2 + 1)
    | (ctx', _, LoopCtl.stop _) => (ctx', 0)

/-! ## Master side: `read_data` and `write_data` -/

/-- `click.UsageError` (the only exception these functions let escape:
their `except` clauses catch only `ModbusException`). -/
inductive PyError where
  | usage (msg : String)
  deriving DecidableEq, Repr

/-- Outcome of one client transport call: a normal response, a response with
`isError()` true, or a raised `ModbusException`. -/
inductive WResult where
  | ok
  | errResponse
  | modbusExn
  deriving DecidableEq, Repr

/-- The write methods of the pymodbus client used by `write_data`
(arguments: address, value(s); the unit id is fixed per call site in the
trace events). -/
structure WClient where
  write_coil : Int → Bool → Int → WResult
  write_coils : Int → List Bool → Int → WResult
  write_register : Int → Int → Int → WResult
  write_registers : Int → List Int → Int → WResult

/-- Observable events of `write_data`: value collection (random generation
or interactive prompts), transport calls, and the echo of the transport
result. -/
inductive WEvent where
  | genCoils (vals : List Bool)
  | promptCoil (addr : Int)
  | genRegs (vals : List Nat)
  | promptReg (addr : Int)
  | callWriteCoil (addr : Int) (v : Bool)
  | callWriteCoils (addr : Int) (vs : List Bool)
  | callWriteRegister (addr : Int) (v : Int)
  | callWriteRegisters (addr : Int) (vs : List Int)
  | response (r : WResult)
  deriving DecidableEq, Repr

/-- Transport write calls (`client.write_coil` / `write_coils` /
`write_register` / `write_registers`). -/
def isTransportW : WEvent → Bool
  | WEvent.callWriteCoil _ _ => true
  | WEvent.callWriteCoils _ _ => true
  | WEvent.callWriteRegister _ _ => true
  | WEvent.callWriteRegisters _ _ => true
  | _ => false

/-- Lines 160–169 of the source: report the transport result (error echo,
success echo, or the `except ModbusException` handler's echo); in every case
`write_data` falls off the end and returns `None`. -/
def handleWriteResult (evs : List WEvent) (r : WResult) :
    List WEvent × Except PyError Unit :=
  (evs ++ [WEvent.response r], Except.ok ())

/-- `write_data`: dispatch on the function code; collect the values (random
generation or one prompt per value); for the single-write codes 5 and 6
raise `click.UsageError` when `count != 1`; otherwise issue the transport
call and report its result.  Randomness is fed by `rng`; interactive input
by `coil_input` / `register_input` (one entry per prompt).  `count.toNat`
mirrors Python's `range(count)`, which is empty for `count ≤ 0`. -/
def write_data (client : WClient) (unit_id function_code address count : Int)
    (random_values : Bool) (rng : Nat → Nat)
    (coil_input : Nat → Bool) (register_input : Nat → Int) :
    List WEvent × Except PyError Unit :=
  if function_code = 5 ∨ function_code = 15 then
    let values : List Bool :=
      if random_values then genCoilList rng count.toNat
      else (List.range count.toNat).map coil_input
    let gatherEvs : List WEvent :=
      if random_values then [WEvent.genCoils (genCoilList rng count.toNat)]
      else (List.range count.toNat).map (fun i => WEvent.promptCoil (address + i))
    if function_code = 5 then
      if count ≠ 1 then
        (gatherEvs, Except.error (PyError.usage "Function code 5 requires count=1"))
      else
        let v := values.headD false
        handleWriteResult (gatherEvs ++ [WEvent.callWriteCoil address v])
          (client.write_coil address v unit_id)
    else
      handleWriteResult (gatherEvs ++ [WEvent.callWriteCoils address values])
        (client.write_coils address values unit_id)
  else if function_code = 6 ∨ function_code = 16 then
    let values : List Int :=
      if random_values then (genRegList 65535 rng count.toNat).map Int.ofNat
      else (List.range count.toNat).map register_input
    let gatherEvs : List WEvent :=
      if random_values then [WEvent.genRegs (genRegList 65535 rng count.toNat)]
      else (List.range count.toNat).map (fun i => WEvent.promptReg (address + i))
    if function_code = 6 then
      if count ≠ 1 then
        (gatherEvs, Except.error (PyError.usage "Function code 6 requires count=1"))
      else
        let v := values.headD 0
        handleWriteResult (gatherEvs ++ [WEvent.callWriteRegister address v])
          (client.write_register address v unit_id)
    else
      handleWriteResult (gatherEvs ++ [WEvent.callWriteRegisters address values])
        (client.write_registers address values unit_id)
  else
    ([], Except.error (PyError.usage "Invalid function code for write. Use 5, 6, 15, or 16"))

/-- Outcome of one client read call: a response object (with its `isError()`
flag, `bits` and `registers` fields) or a raised `ModbusException`. -/
inductive RResult where
  | response (isErr : Bool) (bits : List Bool) (registers : List Nat)
  | modbusExn
  deriving DecidableEq, Repr

/-- The read methods of the pymodbus client used by `read_data`
(arguments: address, count, unit id). -/
structure RClient where
  read_coils : Int → Int → Int → RResult
  read_discrete_inputs : Int → Int → Int → RResult
  read_holding_registers : Int → Int → Int → RResult
  read_input_registers : Int → Int → Int → RResult

/-- The values returned by a successful read: `result.bits` for function
codes 1 and 2, `result.registers` for 3 and 4. -/
inductive ReadValues where
  | bits (l : List Bool)
  | regs (l : List Nat)
  deriving DecidableEq, Repr

/-- Observable events of `read_data`: the transport read request. -/
inductive REvent where
  | callRead (fc : Int) (addr : Int) (cnt : Int) (unit : Int)
  deriving DecidableEq, Repr

/-- Lines 104–114 of the source: `result.isError()` and the
`except ModbusException` handler both echo an error and return `None`; a
normal response returns `result.bits` for codes 1 and 2 and
`result.registers` otherwise. -/
def handleReadResult (function_code : Int) (evs : List REvent) :
    RResult → List REvent × Except PyError (Option ReadValues)
  | RResult.response true _ _ => (evs, Except.ok none)
  | RResult.response false bits regs =>
    (evs, Except.ok (some (if function_code = 1 ∨ function_code = 2
      then ReadValues.bits bits else ReadValues.regs regs)))
  | RResult.modbusExn => (evs, Except.ok none)

/-- `read_data`: dispatch on the function code to the matching client read
method and interpret the result; any other function code raises
`click.UsageError` (which the `except ModbusException` clause does not
catch). -/
def read_data (client : RClient) (unit_id function_code address count : Int) :
    List REvent × Except PyError (Option ReadValues) :=
  if function_code = 1 then
    handleReadResult function_code [REvent.callRead 1 address count unit_id]
      (client.read_coils address count unit_id)
  else if function_code = 2 then
    handleReadResult function_code [REvent.callRead 2 address count unit_id]
      (client.read_discrete_inputs address count unit_id)
  else if function_code = 3 then
    handleReadResult function_code [REvent.callRead 3 address count unit_id]
      (client.read_holding_registers address count unit_id)
  else if function_code = 4 then
    handleReadResult function_code [REvent.callRead 4 address count unit_id]
      (client.read_input_registers address count unit_id)
  else
    ([], Except.error (PyError.usage "Invalid function code for read. Use 1, 2, 3, or 4"))

/-- The client read method `read_data` dispatches to for a supported
function code (a specification-side selector used to state properties of
`read_data` relative to the transport's behavior). -/
def readCall (client : RClient) (function_code address count unit_id : Int) : RResult :=
  if function_code = 1 then client.read_coils address count unit_id
  else if function_code = 2 then client.read_discrete_inputs address count unit_id
  else if function_code = 3 then client.read_holding_registers address count unit_id
  else client.read_input_registers address count unit_id

/-! ## The `slave` subcommand -/

inductive Proto where
  | rtu
  | tcp
  deriving DecidableEq, Repr

/-- Observable milestones of the `slave` subcommand. -/
inductive SEvent where
  | createdContext
  | startedUpdateThread (unit_id : Int) (coils_count holding_registers_count max_register_value : Nat)
  | startedServer
  | echoServerError
  deriving DecidableEq, Repr

/-- The `slave` subcommand: validate `max_register_value` (raising
`click.UsageError` before anything else happens), create the server
context, optionally start the background updater thread, then start the
server (for RTU, a missing port raises inside the `try`, where the
`except Exception` handler echoes it as a server error). -/
def slave (protocol : Proto) (port : Option String) (baudrate : Int) (unit_id : Int)
    (coils discrete_inputs holding_registers input_registers : Nat)
    (random_init : Bool) (max_register_value : Int) (random_update : Bool)
    (rc rd rh ri : Nat → Nat) : List SEvent × Except PyError Unit :=
  if max_register_value < 0 ∨ max_register_value > 65535 then
    ([], Except.error (PyError.usage "max-register-value must be between 0 and 65535"))
  else
    let _ctx := initialize_server_context coils discrete_inputs holding_registers
      input_registers random_init max_register_value.toNat rc rd rh ri
    let evs := [SEvent.createdContext]
      ++ (if random_update
          then [SEvent.startedUpdateThread unit_id coils holding_registers
            max_register_value.toNat]
          else [])
    match protocol with
    | Proto.rtu =>
      if port = none ∨ baudrate = 0 then (evs ++ [SEvent.echoServerError], Except.ok ())
      else (evs ++ [SEvent.startedServer], Except.ok ())
    | Proto.tcp => (evs ++ [SEvent.startedServer], Except.ok ())

/-! ## Concrete fixtures used by the witnesses -/

/-- A write client whose every call succeeds. -/
def okWClient : WClient :=
  ⟨fun _ _ _ => WResult.ok, fun _ _ _ => WResult.ok,
   fun _ _ _ => WResult.ok, fun _ _ _ => WResult.ok⟩

/-- A read client whose every call raises `ModbusException`. -/
def exnRClient : RClient :=
  ⟨fun _ _ _ => RResult.modbusExn, fun _ _ _ => RResult.modbusExn,
   fun _ _ _ => RResult.modbusExn, fun _ _ _ => RResult.modbusExn⟩

/-- A small address space: everything zeroed. -/
def sp0 : AddressSpace :=
  ⟨fun _ => Cell.b false, fun _ => Cell.b false, fun _ => Cell.n 0, fun _ => Cell.n 0⟩

/-- A server context holding `sp0` at unit id 1. -/
def ctx0 : ServerContext := ⟨fun u => if u = 1 then some sp0 else none⟩

/-- A fault-free tick environment with constant-zero random streams. -/
def inp0 : TickInput := ⟨fun _ => 0, fun _ => 0, none⟩

/-- A tick environment that raises while generating the register list. -/
def inpFail : TickInput := ⟨fun _ => 0, fun _ => 0, some FailPoint.genRegs⟩

/-! ## Claims -/

/-- C1: for every master-side write request with function code 5 or 6 and
`count ≠ 1`, `write_data` fails with the cardinality `UsageError` and no
transport write call (`client.write_coil` / `client.write_register`) is
made. -/
theorem c1_single_write_bad_count_no_transport
    (client : WClient) (unit_id address count : Int) (random_values : Bool)
    (rng : Nat → Nat) (coil_input : Nat → Bool) (register_input : Nat → Int)
    (fc : Int) (hfc : fc = 5 ∨ fc = 6) (hc : count ≠ 1) :
    (write_data client unit_id fc address count random_values rng coil_input
        register_input).2
      = Except.error (PyError.usage (if fc = 5 then "Function code 5 requires count=1"
          else "Function code 6 requires count=1"))
    ∧ (write_data client unit_id fc address count random_values rng coil_input
        register_input).1.filter isTransportW = [] := by
  rcases hfc with h | h <;> subst h <;>
    cases random_values <;>
      simp [write_data, hc, isTransportW, List.filter_map, Function.comp]

/-- Witness for C1 at function code 5, count 2. -/
theorem c1_witness :
    (write_data okWClient 1 5 1 2 true (fun _ => 0) (fun _ => false) (fun _ => 0)).2
      = Except.error (PyError.usage (if (5 : Int) = 5 then "Function code 5 requires count=1"
          else "Function code 6 requires count=1"))
    ∧ (write_data okWClient 1 5 1 2 true (fun _ => 0) (fun _ => false)
        (fun _ => 0)).1.filter isTransportW = [] :=
  c1_single_write_bad_count_no_transport okWClient 1 1 2 true (fun _ => 0)
    (fun _ => false) (fun _ => 0) 5 (Or.inl rfl) (by decide)

/-- C7: a function code outside `{1, 2, 3, 4}` makes `read_data` fail with
`UsageError` without sending any transport request, and a function code
outside `{5, 6, 15, 16}` makes `write_data` fail with `UsageError` without
sending any transport request. -/
theorem c7_unsupported_function_code
    (rclient : RClient) (wclient : WClient) (unit_id address count : Int)
    (random_values : Bool) (rng : Nat → Nat) (coil_input : Nat → Bool)
    (register_input : Nat → Int) (fcR fcW : Int)
    (hR : fcR ≠ 1 ∧ fcR ≠ 2 ∧ fcR ≠ 3 ∧ fcR ≠ 4)
    (hW : fcW ≠ 5 ∧ fcW ≠ 6 ∧ fcW ≠ 15 ∧ fcW ≠ 16) :
    read_data rclient unit_id fcR address count
      = ([], Except.error (PyError.usage "Invalid function code for read. Use 1, 2, 3, or 4"))
    ∧ write_data wclient unit_id fcW address count random_values rng coil_input
        register_input
      = ([], Except.error (PyError.usage "Invalid function code for write. Use 5, 6, 15, or 16")) := by
  obtain ⟨h1, h2, h3, h4⟩ := hR
  obtain ⟨h5, h6, h15, h16⟩ := hW
  constructor
  · simp [read_data, h1, h2, h3, h4]
  · simp [write_data, h5, h6, h15, h16]

/-- Witness for C7 at function code 7 on both paths. -/
theorem c7_witness :
    read_data exnRClient 1 7 1 1
      = ([], Except.error (PyError.usage "Invalid function code for read. Use 1, 2, 3, or 4"))
    ∧ write_data okWClient 1 7 1 1 true (fun _ => 0) (fun _ => false) (fun _ => 0)
      = ([], Except.error (PyError.usage "Invalid function code for write. Use 5, 6, 15, or 16")) :=
  c7_unsupported_function_code exnRClient okWClient 1 1 1 true (fun _ => 0)
    (fun _ => false) (fun _ => 0) 7 7 (by decide) (by decide)

/-- C10: for a master-side write with function code 5 or 6 and `count ≠ 1`,
the whole value list is collected first — on the random path one generation
event carrying `count` values, on the interactive path one prompt per value,
`count` prompts in the order of the addresses — and only then is the
cardinality failure raised, still without any transport write (`count` here
is Python's `range(count)` length, i.e. `count.toNat`). -/
theorem c10_values_collected_before_failure
    (client : WClient) (unit_id address count : Int)
    (rng : Nat → Nat) (coil_input : Nat → Bool) (register_input : Nat → Int)
    (fc : Int) (hfc : fc = 5 ∨ fc = 6) (hc : count ≠ 1) :
    (write_data client unit_id fc address count true rng coil_input register_input).1
      = (if fc = 5 then [WEvent.genCoils (genCoilList rng count.toNat)]
         else [WEvent.genRegs (genRegList 65535 rng count.toNat)])
    ∧ (genCoilList rng count.toNat).length = count.toNat
    ∧ (genRegList 65535 rng count.toNat).length = count.toNat
    ∧ (write_data client unit_id fc address count false rng coil_input register_input).1
      = (List.range count.toNat).map
          (fun i => if fc = 5 then WEvent.promptCoil (address + i)
                    else WEvent.promptReg (address + i))
    ∧ (write_data client unit_id fc address count true rng coil_input register_input).2
      = Except.error (PyError.usage (if fc = 5 then "Function code 5 requires count=1"
          else "Function code 6 requires count=1"))
    ∧ (write_data client unit_id fc address count false rng coil_input register_input).2
      = Except.error (PyError.usage (if fc = 5 then "Function code 5 requires count=1"
          else "Function code 6 requires count=1"))
    ∧ (write_data client unit_id fc address count true rng coil_input
        register_input).1.filter isTransportW = []
    ∧ (write_data client unit_id fc address count false rng coil_input
        register_input).1.filter isTransportW = [] := by
  rcases hfc with h | h <;> subst h <;>
    simp [write_data, hc, genCoilList, genRegList, isTransportW,
      List.filter_map, Function.comp]

/-- Witness for C10 at function code 6, count 3: three values are generated
(or three prompts issued) and then the call fails with the cardinality
error. -/
theorem c10_witness :
    (write_data okWClient 1 6 1 3 true (fun _ => 0) (fun _ => false) (fun _ => 0)).1
      = [WEvent.genRegs [0, 0, 0]]
    ∧ (write_data okWClient 1 6 1 3 false (fun _ => 0) (fun _ => false) (fun _ => 0)).1
      = [WEvent.promptReg 1, WEvent.promptReg 2, WEvent.promptReg 3]
    ∧ (write_data okWClient 1 6 1 3 true (fun _ => 0) (fun _ => false) (fun _ => 0)).2
      = Except.error (PyError.usage "Function code 6 requires count=1") := by
  have h := c10_values_collected_before_failure okWClient 1 1 3 (fun _ => 0)
    (fun _ => false) (fun _ => 0) 6 (Or.inr rfl) (by decide)
  refine ⟨?_, ?_, ?_⟩
  · rw [h.1]; decide
  · rw [h.2.2.2.1]; decide
  · rw [h.2.2.2.2.1]; simp

/-- Case analysis of the shared result handling of `read_data`: it never
produces an `Except.error`, returns `none` for an error response or a raised
`ModbusException`, and returns the read values for a normal response. -/
theorem handleReadResult_snd (fc : Int) (evs : List REvent) (res : RResult) :
    ((handleReadResult fc evs res).2.toOption).isSome = true
    ∧ (res = RResult.modbusExn → (handleReadResult fc evs res).2 = Except.ok none)
    ∧ (∀ bits regs, res = RResult.response true bits regs →
        (handleReadResult fc evs res).2 = Except.ok none)
    ∧ (∀ bits regs, res = RResult.response false bits regs →
        (handleReadResult fc evs res).2
          = Except.ok (some (if fc = 1 ∨ fc = 2
              then ReadValues.bits bits else ReadValues.regs regs))) := by
  cases res with
  | modbusExn => simp [handleReadResult, Except.toOption]
  | response isErr bits regs => cases isErr <;> simp [handleReadResult, Except.toOption]

/-- C8: for every supported read function code, `read_data` propagates no
Modbus failure as an exception: its result is always `Except.ok` — the list
of read values for a normal response, `None` both for an error response and
for a raised `ModbusException`. -/
theorem c8_read_data_no_raise
    (client : RClient) (unit_id address count : Int) (fc : Int)
    (hfc : fc = 1 ∨ fc = 2 ∨ fc = 3 ∨ fc = 4) :
    ((read_data client unit_id fc address count).2.toOption).isSome = true
    ∧ (readCall client fc address count unit_id = RResult.modbusExn →
        (read_data client unit_id fc address count).2 = Except.ok none)
    ∧ (∀ bits regs,
        readCall client fc address count unit_id = RResult.response true bits regs →
        (read_data client unit_id fc address count).2 = Except.ok none)
    ∧ (∀ bits regs,
        readCall client fc address count unit_id = RResult.response false bits regs →
        (read_data client unit_id fc address count).2
          = Except.ok (some (if fc = 1 ∨ fc = 2
              then ReadValues.bits bits else ReadValues.regs regs))) := by
  rcases hfc with h | h | h | h <;> subst h
  · simpa [read_data, readCall] using handleReadResult_snd 1
      [REvent.callRead 1 address count unit_id] (client.read_coils address count unit_id)
  · simpa [read_data, readCall] using handleReadResult_snd 2
      [REvent.callRead 2 address count unit_id]
      (client.read_discrete_inputs address count unit_id)
  · simpa [read_data, readCall] using handleReadResult_snd 3
      [REvent.callRead 3 address count unit_id]
      (client.read_holding_registers address count unit_id)
  · simpa [read_data, readCall] using handleReadResult_snd 4
      [REvent.callRead 4 address count unit_id]
      (client.read_input_registers address count unit_id)

/-- Witness for C8: a client that raises `ModbusException` on every call
makes `read_data` with function code 3 return `None` (as a value, not an
exception). -/
theorem c8_witness : (read_data exnRClient 1 3 1 1).2 = Except.ok none :=
  (c8_read_data_no_raise exnRClient 1 1 1 3 (by decide)).2.1 (by decide)

/-- `random.randint(0, max)` yields a value bounded by `max`. -/
theorem randint0_le (mx r : Nat) : randint0 mx r ≤ mx :=
  Nat.lt_succ_iff.mp (Nat.mod_lt r (Nat.succ_pos mx))

/-- Every value of a generated register list is bounded by the `max`
argument of the generator. -/
theorem genRegList_le (mx : Nat) (rng : Nat → Nat) (n : Nat) :
    ∀ v ∈ genRegList mx rng n, v ≤ mx := by
  intro v hv
  simp only [genRegList, List.mem_map, List.mem_range] at hv
  obtain ⟨i, _, rfl⟩ := hv
  exact randint0_le mx (rng i)

/-- Case split for a cell of a freshly built data block: it is the block's
default cell or one of the initialisation values. -/
theorem blockFun_cases (vs : List Cell) (dflt : Cell) (a : Nat) :
    blockFun vs dflt a = dflt ∨ blockFun vs dflt a ∈ vs :=
  writeSeq_cases _ _ _ _

/-- C2 counterexample: with a valid configured `max_register_value` of 100,
the master-side random-values write path still generates the register value
65535 (it draws from the fixed range `[0, 65535]`, ignoring the configured
bound), so the value is not in `[0, max_register_value]`. -/
theorem c2_counterexample :
    WEvent.genRegs [65535]
      ∈ (write_data okWClient 1 16 1 1 true (fun _ => 65535) (fun _ => false)
          (fun _ => 0)).1
    ∧ (0 : Int) ≤ 100 ∧ (100 : Int) ≤ 65535
    ∧ ¬ ((65535 : Nat) ≤ 100) := by decide

/-- C2 (amended): boolean random values are always in `{true, false}`;
register values generated by the slave-side paths — random initialization
and the background updater — are in `[0, max_register_value]` for their
configured `max_register_value`; the master-side random-values write path
generates register values in the fixed full range `[0, 65535]`, independent
of any configured bound. -/
theorem c2_amended_value_generation_bounds :
    (∀ (mx : Nat) (rng : Nat → Nat) (n : Nat), ∀ v ∈ genRegList mx rng n, v ≤ mx)
    ∧ (∀ (rng : Nat → Nat) (n : Nat), ∀ b ∈ genCoilList rng n, b = true ∨ b = false)
    ∧ (∀ (client : WClient) (unit_id fc address count : Int) (rng : Nat → Nat)
        (coil_input : Nat → Bool) (register_input : Nat → Int) (vs : List Nat),
        WEvent.genRegs vs ∈ (write_data client unit_id fc address count true rng
          coil_input register_input).1 →
        ∀ v ∈ vs, v ≤ 65535)
    ∧ (∀ (unit_id : Int) (cc hc mx : Nat) (ctx : ServerContext) (inp : TickInput)
        (fc adr : Nat) (vs : List Cell),
        UEvent.setVals fc adr vs
          ∈ (update_random_values_tick unit_id cc hc mx ctx inp).2.1 →
        ∀ cell ∈ vs, (∃ b, cell = Cell.b b) ∨ ∃ v, v ≤ mx ∧ cell = Cell.n v)
    ∧ (∀ (nc nd nh ni : Nat) (random_init : Bool) (mx : Nat) (rc rd rh ri : Nat → Nat)
        (store : AddressSpace),
        (initialize_server_context nc nd nh ni random_init mx rc rd rh ri).slaves 1
          = some store →
        ∀ a : Nat, (∃ b, store.co a = Cell.b b) ∧ (∃ b, store.di a = Cell.b b)
          ∧ (∃ v, v ≤ mx ∧ store.hr a = Cell.n v)
          ∧ (∃ v, v ≤ mx ∧ store.ir a = Cell.n v)) := by
  refine ⟨genRegList_le, ?_, ?_, ?_, ?_⟩
  · intro rng n b hb
    cases b
    · exact Or.inr rfl
    · exact Or.inl rfl
  · -- the master path's generated register values are bounded by 65535
    intro client unit_id fc address count rng coil_input register_input vs hmem v hv
    by_cases h5 : fc = 5 ∨ fc = 15
    · rcases h5 with h | h <;> subst h <;> by_cases hc : count = 1 <;>
        simp [write_data, hc, handleWriteResult] at hmem
    · by_cases h6 : fc = 6 ∨ fc = 16
      · rcases h6 with h | h <;> subst h <;> by_cases hc : count = 1 <;>
          simp [write_data, h5, hc, handleWriteResult] at hmem <;>
          (subst hmem; exact genRegList_le _ _ _ v hv)
      · simp [write_data, h5, h6] at hmem
  · -- every batch the updater writes holds booleans or registers ≤ mx
    intro unit_id cc hc mx ctx inp fc adr vs hmem cell hcell
    have hbody : vs = (genCoilList inp.rngC cc).map Cell.b
        ∨ vs = (genRegList mx inp.rngR hc).map Cell.n := by
      have hevs : UEvent.setVals fc adr vs
          ∈ (update_random_values_tick_body unit_id cc hc mx ctx inp).2.1 := by
        unfold update_random_values_tick at hmem
        rcases hb : update_random_values_tick_body unit_id cc hc mx ctx inp
          with ⟨ctx', evs, exn⟩
        rw [hb] at hmem
        have : UEvent.setVals fc adr vs ∈ evs := by
          cases exn <;> simpa using hmem
        simpa [hb] using this
      clear hmem
      unfold update_random_values_tick_body at hevs
      simp only [updateSlave_self] at hevs
      repeat' split at hevs
      all_goals simp at hevs
      all_goals
        first
        | exact Or.inl hevs.2.2
        | (rcases hevs with h | h
           · exact Or.inl h.2.2
           · exact Or.inr h.2.2)
    rcases hbody with rfl | rfl
    · simp only [List.mem_map] at hcell
      obtain ⟨b, _, rfl⟩ := hcell
      exact Or.inl ⟨b, rfl⟩
    · simp only [List.mem_map] at hcell
      obtain ⟨v, hv, rfl⟩ := hcell
      exact Or.inr ⟨v, genRegList_le mx inp.rngR hc v hv, rfl⟩
  · -- randomly initialized banks: booleans in the bit banks, bounded
    -- integers in the register banks
    intro nc nd nh ni random_init mx rc rd rh ri store hst a
    simp only [initialize_server_context, if_pos, if_true, Option.some.injEq,
      show ((1 : Int) = 1) = True by simp] at hst
    subst hst
    refine ⟨?_, ?_, ?_, ?_⟩
    · rcases blockFun_cases _ (Cell.b false) a with h | h
      · exact ⟨false, h⟩
      · simp only [List.mem_map] at h
        obtain ⟨b, _, hb⟩ := h
        exact ⟨b, hb.symm⟩
    · rcases blockFun_cases _ (Cell.b false) a with h | h
      · exact ⟨false, h⟩
      · simp only [List.mem_map] at h
        obtain ⟨b, _, hb⟩ := h
        exact ⟨b, hb.symm⟩
    · rcases blockFun_cases _ (Cell.n 0) a with h | h
      · exact ⟨0, Nat.zero_le mx, h⟩
      · simp only [List.mem_map] at h
        obtain ⟨v, hv, hvc⟩ := h
        refine ⟨v, ?_, hvc.symm⟩
        cases random_init <;> simp [List.mem_replicate] at hv
        · omega
        · exact genRegList_le mx rh nh v hv
    · rcases blockFun_cases _ (Cell.n 0) a with h | h
      · exact ⟨0, Nat.zero_le mx, h⟩
      · simp only [List.mem_map] at h
        obtain ⟨v, hv, hvc⟩ := h
        refine ⟨v, ?_, hvc.symm⟩
        cases random_init <;> simp [List.mem_replicate] at hv
        · omega
        · exact genRegList_le mx ri ni v hv

/-- Witness for the amended C2: a slave-side draw with configured bound 10
stays within 10, a generated boolean is a boolean, and a master-side draw
from a large raw random value stays within 65535. -/
theorem c2_witness :
    (randint0 10 7 ∈ genRegList 10 (fun _ => 7) 1 ∧ randint0 10 7 ≤ 10)
    ∧ (pyChoice 3 ∈ genCoilList (fun _ => 3) 1
        ∧ (pyChoice 3 = true ∨ pyChoice 3 = false))
    ∧ (WEvent.genRegs [34463, 34463]
        ∈ (write_data okWClient 1 16 1 2 true (fun _ => 99999) (fun _ => false)
            (fun _ => 0)).1
        ∧ (34463 : Nat) ≤ 65535) := by
  have h := c2_amended_value_generation_bounds
  refine ⟨⟨by decide, h.1 10 (fun _ => 7) 1 _ (by decide)⟩,
    ⟨by decide, h.2.1 (fun _ => 3) 1 _ (by decide)⟩,
    ⟨by decide, h.2.2.1 okWClient 1 16 1 2 (fun _ => 99999) (fun _ => false)
      (fun _ => 0) [34463, 34463] (by decide) 34463 (by decide)⟩⟩

/-- C4: the background updater loop survives every tick error: the control
flow after any tick — including every injected fault — is `next` (never
`stop`), a full run performs one iteration per scheduled tick, and whenever
the tick body raises, the error is logged. -/
theorem c4_updater_never_stops
    (unit_id : Int) (cc hc mx : Nat) (ctx : ServerContext) (inputs : List TickInput) :
    (update_random_values unit_id cc hc mx ctx inputs).2 = inputs.length
    ∧ (∀ (c : ServerContext) (inp : TickInput),
        (update_random_values_tick unit_id cc hc mx c inp).2.2 = LoopCtl.next)
    ∧ (∀ (c : ServerContext) (inp : TickInput) (e : PyExn),
        (update_random_values_tick_body unit_id cc hc mx c inp).2.2 = some e →
        UEvent.logError ∈ (update_random_values_tick unit_id cc hc mx c inp).2.1) := by
  have hnext : ∀ (c : ServerContext) (inp : TickInput),
      (update_random_values_tick unit_id cc hc mx c inp).2.2 = LoopCtl.next := by
    intro c inp
    unfold update_random_values_tick
    rcases hb : update_random_values_tick_body unit_id cc hc mx c inp with ⟨c', evs, exn⟩
    cases exn <;> simp
  refine ⟨?_, hnext, ?_⟩
  · induction inputs generalizing ctx with
    | nil => simp [update_random_values]
    | cons inp rest ih =>
      unfold update_random_values
      rcases ht : update_random_values_tick unit_id cc hc mx ctx inp with ⟨ctx', evs, ctl⟩
      have hn := hnext ctx inp
      rw [ht] at hn
      simp only at hn
      subst hn
      simp [ih ctx']
  · intro c inp e hb
    unfold update_random_values_tick
    rcases ht : update_random_values_tick_body unit_id cc hc mx c inp with ⟨c', evs, exn⟩
    rw [ht] at hb
    simp only at hb
    subst hb
    simp

/-- Witness for C4: a two-tick run with one faulty tick performs both ticks,
and the faulty tick logs the error. -/
theorem c4_witness :
    (update_random_values 1 2 2 5 ctx0 [inpFail, inp0]).2 = 2
    ∧ UEvent.logError ∈ (update_random_values_tick 1 2 2 5 ctx0 inpFail).2.1 := by
  have h := c4_updater_never_stops 1 2 2 5 ctx0 [inpFail, inp0]
  exact ⟨h.1, h.2.2 ctx0 inpFail PyExn.generic (by decide)⟩

/-- C5: a fault-free tick of the background updater issues exactly one batch
write per bank — coils then holding registers — each starting at address 1
and covering the configured count, and the resulting address space holds the
freshly generated values on `1 .. count` of those two banks, everything else
(including the other two banks) unchanged. -/
theorem c5_clean_tick_batches
    (unit_id : Int) (cc hc mx : Nat) (ctx : ServerContext) (inp : TickInput)
    (sp : AddressSpace) (hf : inp.fail = none) (hsl : ctx.slaves unit_id = some sp) :
    (update_random_values_tick unit_id cc hc mx ctx inp).2.1
      = [UEvent.setVals 1 1 ((genCoilList inp.rngC cc).map Cell.b),
         UEvent.setVals 3 1 ((genRegList mx inp.rngR hc).map Cell.n),
         UEvent.readback]
    ∧ (genCoilList inp.rngC cc).length = cc
    ∧ (genRegList mx inp.rngR hc).length = hc
    ∧ ∃ sp',
        (update_random_values_tick unit_id cc hc mx ctx inp).1.slaves unit_id = some sp'
        ∧ (∀ i, i < cc → sp'.co (1 + i) = Cell.b (pyChoice (inp.rngC i)))
        ∧ (∀ a, a = 0 ∨ 1 + cc ≤ a → sp'.co a = sp.co a)
        ∧ (∀ i, i < hc → sp'.hr (1 + i) = Cell.n (randint0 mx (inp.rngR i)))
        ∧ (∀ a, a = 0 ∨ 1 + hc ≤ a → sp'.hr a = sp.hr a)
        ∧ sp'.di = sp.di ∧ sp'.ir = sp.ir := by
  unfold update_random_values_tick update_random_values_tick_body
  simp only [hf, hsl, updateSlave_self]
  refine ⟨by simp, by simp [genCoilList], by simp [genRegList], ?_⟩
  refine ⟨{ co := writeSeq sp.co 1 ((genCoilList inp.rngC cc).map Cell.b)
            di := sp.di
            hr := writeSeq sp.hr 1 ((genRegList mx inp.rngR hc).map Cell.n)
            ir := sp.ir },
    updateSlave_self _ _ _, ?_, ?_, ?_, ?_, rfl, rfl⟩
  · intro i hi
    have hlen : i < ((genCoilList inp.rngC cc).map Cell.b).length := by
      simpa [genCoilList] using hi
    calc writeSeq sp.co 1 ((genCoilList inp.rngC cc).map Cell.b) (1 + i)
        = ((genCoilList inp.rngC cc).map Cell.b).get ⟨i, hlen⟩ :=
          writeSeq_get sp.co 1 _ i hlen
      _ = Cell.b (pyChoice (inp.rngC i)) := by
          simp [genCoilList, List.get_eq_getElem]
  · intro a ha
    rcases ha with ha | ha
    · exact writeSeq_of_lt _ _ _ _ (by omega)
    · exact writeSeq_of_ge _ _ _ _ (by simp [genCoilList]; omega)
  · intro i hi
    have hlen : i < ((genRegList mx inp.rngR hc).map Cell.n).length := by
      simpa [genRegList] using hi
    calc writeSeq sp.hr 1 ((genRegList mx inp.rngR hc).map Cell.n) (1 + i)
        = ((genRegList mx inp.rngR hc).map Cell.n).get ⟨i, hlen⟩ :=
          writeSeq_get sp.hr 1 _ i hlen
      _ = Cell.n (randint0 mx (inp.rngR i)) := by
          simp [genRegList, List.get_eq_getElem]
  · intro a ha
    rcases ha with ha | ha
    · exact writeSeq_of_lt _ _ _ _ (by omega)
    · exact writeSeq_of_ge _ _ _ _ (by simp [genRegList]; omega)

/-- Witness for C5: a concrete fault-free tick on a two-cell configuration
produces exactly the two batch writes at address 1 followed by the
read-back. -/
theorem c5_witness :
    (update_random_values_tick 1 2 2 5 ctx0 inp0).2.1
      = [UEvent.setVals 1 1 ((genCoilList (fun _ => 0) 2).map Cell.b),
         UEvent.setVals 3 1 ((genRegList 5 (fun _ => 0) 2).map Cell.n),
         UEvent.readback] :=
  (c5_clean_tick_batches 1 2 2 5 ctx0 inp0 sp0 rfl rfl).1

/-- C9: no tick of the background updater — fault-free or failed at any
point — changes the discrete-inputs bank or the input-registers bank of any
unit. -/
theorem c9_updater_preserves_di_ir
    (unit_id : Int) (cc hc mx : Nat) (ctx : ServerContext) (inp : TickInput) (u : Int) :
    ((update_random_values_tick unit_id cc hc mx ctx inp).1.slaves u).map AddressSpace.di
      = (ctx.slaves u).map AddressSpace.di
    ∧ ((update_random_values_tick unit_id cc hc mx ctx inp).1.slaves u).map AddressSpace.ir
      = (ctx.slaves u).map AddressSpace.ir := by
  constructor <;>
  · unfold update_random_values_tick update_random_values_tick_body
    rcases hf : inp.fail with _ | fp
    · rcases hsl : ctx.slaves unit_id with _ | sp
      · simp [hf, hsl]
      · by_cases hu : u = unit_id <;>
          simp [hf, hsl, updateSlave_self, updateSlave, hu]
    · cases fp <;>
        rcases hsl : ctx.slaves unit_id with _ | sp <;>
        by_cases hu : u = unit_id <;>
          simp [hf, hsl, updateSlave_self, updateSlave, hu]

/-- C6: for every `max_register_value` outside `[0, 65535]`, the `slave`
subcommand fails with the configuration `UsageError` and an empty trace: no
datastore is created, no updater thread started, no server started. -/
theorem c6_bad_max_register_value_fails_fast
    (protocol : Proto) (port : Option String) (baudrate unit_id : Int)
    (nc nd nh ni : Nat) (random_init : Bool) (mrv : Int) (random_update : Bool)
    (rc rd rh ri : Nat → Nat) (h : mrv < 0 ∨ mrv > 65535) :
    slave protocol port baudrate unit_id nc nd nh ni random_init mrv random_update
        rc rd rh ri
      = ([], Except.error (PyError.usage "max-register-value must be between 0 and 65535")) := by
  unfold slave
  rw [if_pos h]

/-- Witness for C6 at `max_register_value = 100000`. -/
theorem c6_witness :
    slave Proto.tcp none 9600 1 10 10 10 10 false 100000 false
        (fun _ => 0) (fun _ => 0) (fun _ => 0) (fun _ => 0)
      = ([], Except.error (PyError.usage "max-register-value must be between 0 and 65535")) :=
  c6_bad_max_register_value_fails_fast Proto.tcp none 9600 1 10 10 10 10 false
    100000 false (fun _ => 0) (fun _ => 0) (fun _ => 0) (fun _ => 0) (by decide)

/-- C3 evaluated at the failing input `unit_id = 2`: the server context
created at startup maps only unit 1, so unit 2 — accepted by the `slave`
subcommand and handed to the background updater — is not mapped; the
updater's tick on unit 2 performs no write at all, merely logging the
lookup error and continuing, while the `slave` command happily starts the
updater thread for unit 2 over a context holding only unit 1. -/
theorem c3_unit_id_not_mapped :
    ((initialize_server_context 3 3 3 3 false 65535 (fun _ => 0) (fun _ => 0)
        (fun _ => 0) (fun _ => 0)).slaves 2).isNone = true
    ∧ ((initialize_server_context 3 3 3 3 false 65535 (fun _ => 0) (fun _ => 0)
        (fun _ => 0) (fun _ => 0)).slaves 1).isSome = true
    ∧ (update_random_values_tick 2 3 3 65535
        (initialize_server_context 3 3 3 3 false 65535 (fun _ => 0) (fun _ => 0)
          (fun _ => 0) (fun _ => 0)) inp0).2.1 = [UEvent.logError]
    ∧ (update_random_values_tick 2 3 3 65535
        (initialize_server_context 3 3 3 3 false 65535 (fun _ => 0) (fun _ => 0)
          (fun _ => 0) (fun _ => 0)) inp0).2.2 = LoopCtl.next
    ∧ (slave Proto.tcp none 9600 2 3 3 3 3 false 65535 true
        (fun _ => 0) (fun _ => 0) (fun _ => 0) (fun _ => 0)).1
      = [SEvent.createdContext, SEvent.startedUpdateThread 2 3 3 65535,
         SEvent.startedServer] := by
  decide

end MoModbus
